import Mathlib

/-
Shallow embedding of the yui-relayer path/status core (core/path.go) and the
ethereum backend transaction authority (the unnamed ethereum source file).

Conventions used throughout:
- Go strings are Lean String values; Go string comparison is propositional
  equality (String has decidable equality).
- A Go pointer of type *T is modelled as Option T; the nil pointer is none.
- A Go error value is modelled by a Bool flag (true means the error was
  non-nil) where only nil-ness is observable, and by Except String where the
  message text matters.
- A Go function with signature (T, error) returns the full pair: the T
  component is the value the callee returned, meaningful or not, exactly as
  in Go where both return values always exist.
-/

set_option maxRecDepth 4096

namespace Relayer

/-- Modelled from the spec: the PathEnd struct is declared in core/pathEnd.go,
which is not among the provided sources. Field list from spec section 3:
ChainID, ClientID, ConnectionID, ChannelID, PortID (strings), Order (a string
holding ORDERED or UNORDERED), Version (string). -/
structure PathEnd where
  ChainID : String
  ClientID : String
  ConnectionID : String
  ChannelID : String
  PortID : String
  Order : String
  Version : String
deriving DecidableEq

/-- Strategy configuration attached to a Path. The Go field is named Type,
which is a reserved word in Lean, hence the primed field name. -/
structure StrategyCfg where
  type' : String
deriving DecidableEq

/-- Path from core/path.go lines 104-108: a pair of PathEnds plus a strategy.
The Go fields Src and Dst are pointers; the claims under study restrict
attention to Paths whose sides are non-nil, so the sides are embedded as
plain values. -/
structure Path where
  Src : PathEnd
  Dst : PathEnd
  Strategy : StrategyCfg
deriving DecidableEq

/-- Modelled from the spec: PathEnd.Validate is defined in core/pathEnd.go,
outside the provided sources. Per spec section 4.1 it fails when ChainID is
empty and when Order is not one of the two recognized values, and the Version
requirement is explicitly checked one level up in Path.Validate, not here. -/
def PathEnd.Validate (pe : PathEnd) : Except String Unit :=
  if pe.ChainID = "" then .error "path end chain id cannot be empty"
  else if pe.Order ≠ "ORDERED" ∧ pe.Order ≠ "UNORDERED" then
    .error "path end order must be ORDERED or UNORDERED"
  else .ok ()

/-- Modelled from the spec: ValidateStrategy is defined outside the provided
sources; per spec section 4.1 it validates the Strategy by requiring a
non-empty type tag. -/
def Path.ValidateStrategy (p : Path) : Except String Unit :=
  if p.Strategy.type' = "" then .error "strategy type cannot be empty"
  else .ok ()

/-- Message produced by Path.Validate when the two sides have different
Order values; it reports both observed values (core/path.go line 148). -/
def orderMismatchMessage (srcOrder dstOrder : String) : String :=
  "both sides must have same order (ORDERED or UNORDERED), got src(" ++
    srcOrder ++ ") and dst(" ++ dstOrder ++ ")"

/-- Path.Validate from core/path.go lines 134-152: validate Src, require a
non-empty Src.Version, validate Dst, validate the strategy, and require equal
Order on both sides, failing with the first violated check. Note that
Dst.Version is never consulted. -/
def Path.Validate (p : Path) : Except String Unit :=
  match p.Src.Validate with
  | .error e => .error e
  | .ok _ =>
    if p.Src.Version = "" then .error "source must specify a version"
    else
      match p.Dst.Validate with
      | .error e => .error e
      | .ok _ =>
        match p.ValidateStrategy with
        | .error e => .error e
        | .ok _ =>
          if p.Src.Order ≠ p.Dst.Order then
            .error (orderMismatchMessage p.Src.Order p.Dst.Order)
          else .ok ()

/-- Zero value of PathEnd, the Go literal PathEnd obtained from an empty
composite literal: every string field is empty. -/
def zeroPathEnd : PathEnd :=
  { ChainID := "", ClientID := "", ConnectionID := "", ChannelID := "",
    PortID := "", Order := "", Version := "" }

/-- Path.End from core/path.go lines 155-163: return the Dst side when its
ChainID matches, otherwise the Src side when it matches, otherwise a fresh
zero PathEnd. -/
def Path.End (p : Path) (chainID : String) : PathEnd :=
  if p.Dst.ChainID = chainID then p.Dst
  else if p.Src.ChainID = chainID then p.Src
  else zeroPathEnd

/-- GenPath from core/path.go lines 171-195. The six calls to
RandLowerCaseLetterString(10) are modelled by the six extra identifier
parameters, since the spec places the random source out of scope; both sides
receive the given order and version and the strategy type is naive. -/
def GenPath (srcChainID dstChainID srcPortID dstPortID order version
    srcClientID srcConnID srcChanID dstClientID dstConnID dstChanID : String) : Path :=
  { Src := { ChainID := srcChainID, ClientID := srcClientID,
             ConnectionID := srcConnID, ChannelID := srcChanID,
             PortID := srcPortID, Order := order, Version := version }
    Dst := { ChainID := dstChainID, ClientID := dstClientID,
             ConnectionID := dstConnID, ChannelID := dstChanID,
             PortID := dstPortID, Order := order, Version := version }
    Strategy := { type' := "naive" } }

/-- Paths from core/path.go line 25: a registry mapping path names to Paths.
The Go type is map[string]*Path; it is modelled as an association list whose
lookup mirrors map indexing. -/
abbrev Paths := List (String × Path)

/-- Lookup of a name in the registry, the Go expression p[name]. -/
def Paths.find? : Paths → String → Option Path
  | [], _ => none
  | e :: es, name => if e.1 = name then some e.2 else Paths.find? es name

/-- Store under a name in the registry, the Go statement p[name] = path:
replaces the entry when the name is present, appends otherwise. -/
def Paths.insertEntry : Paths → String → Path → Paths
  | [], name, path => [(name, path)]
  | e :: es, name, path =>
    if e.1 = name then (name, path) :: es
    else e :: Paths.insertEntry es name path

/-- Paths.Add from core/path.go lines 56-65: validate the path, fail when the
name is already present, otherwise insert. The Go method mutates the receiver
map; the embedding returns the result together with the post-state of the
registry, which on failure is the unchanged input. -/
def Paths.Add (p : Paths) (name : String) (path : Path) :
    Except String Unit × Paths :=
  match path.Validate with
  | .error e => (.error e, p)
  | .ok _ =>
    if (Paths.find? p name).isSome then
      (.error ("path with name " ++ name ++ " already exists"), p)
    else (.ok (), Paths.insertEntry p name path)

/-- Paths.AddForce from core/path.go lines 68-77: validate the path, then
store it under the name unconditionally, overwriting an existing entry (the
Go method additionally prints a notice on overwrite, a side effect with no
bearing on the registry state). -/
def Paths.AddForce (p : Paths) (name : String) (path : Path) :
    Except String Unit × Paths :=
  match path.Validate with
  | .error e => (.error e, p)
  | .ok _ => (.ok (), Paths.insertEntry p name path)

/-- Match predicate of PathsFromChains (core/path.go line 92): the entry
matches when each of the two requested chain identifiers equals one of the
two end chain identifiers of the stored path. -/
def pathsFromChainsPred (src dst : String) (e : String × Path) : Bool :=
  (e.2.Dst.ChainID == src || e.2.Src.ChainID == src) &&
    (e.2.Dst.ChainID == dst || e.2.Src.ChainID == dst)

/-- Paths.PathsFromChains from core/path.go lines 89-100: collect every
matching entry, failing when none matches. -/
def Paths.PathsFromChains (p : Paths) (src dst : String) : Except String Paths :=
  let out := p.filter (pathsFromChainsPred src dst)
  if out.isEmpty then
    .error ("failed to find path in config between chains " ++ src ++
      " and " ++ dst)
  else .ok out

/-- Connection lifecycle states, from the ibc-go connection types used at
core/path.go line 260; only OPEN is inspected by the orchestrator. -/
inductive ConnectionState
  | UNINITIALIZED
  | INIT
  | TRYOPEN
  | OPEN
deriving DecidableEq

/-- Channel lifecycle states, from the ibc-go channel types used at
core/path.go line 273. -/
inductive ChannelState
  | UNINITIALIZED
  | INIT
  | TRYOPEN
  | OPEN
  | CLOSED
deriving DecidableEq

/-- Client state query response; the orchestrator only tests the response
pointer for nil, so the payload is opaque. -/
structure QueryClientStateResponse where
  clientStatePayload : Unit
deriving DecidableEq

/-- Connection end carried by a connection query response. -/
structure ConnectionEnd where
  State : ConnectionState
deriving DecidableEq

/-- Connection query response from ibc-go; the Go response is reached through
a pointer, modelled by the Option wrapping at the query signature. -/
structure QueryConnectionResponse where
  Connection : ConnectionEnd
deriving DecidableEq

/-- Channel end carried by a channel query response. -/
structure ChannelEnd where
  State : ChannelState
deriving DecidableEq

/-- Channel query response from ibc-go. -/
structure QueryChannelResponse where
  Channel : ChannelEnd
deriving DecidableEq

/-- Capability interface of one chain as consumed by QueryPathStatus
(core/path.go lines 224-273), shallowly embedded: each Go call returns its
full (value, error) pair, the Bool being true exactly when the Go error was
non-nil. The query methods receive the height carried by the query context
that the orchestrator builds with NewQueryContext; the cancellation token
inside the context has no observable effect on the pure embedding and is
dropped. The height type is abstract. -/
structure ProvableChain (H : Type) where
  latestHeight : H × Bool
  queryClientState : H → Option QueryClientStateResponse × Bool
  queryConnection : H → Option QueryConnectionResponse × Bool
  queryChannel : H → Option QueryChannelResponse × Bool

/-- PathStatus from core/path.go lines 198-203. -/
structure PathStatus where
  Chains : Bool
  Clients : Bool
  Connection : Bool
  Channel : Bool
deriving DecidableEq

/-- PathWithStatus from core/path.go lines 206-209. -/
structure PathWithStatus where
  Path : Path
  Status : PathStatus
deriving DecidableEq

/-- QueryPathStatus from core/path.go lines 213-278, embedded with two
deliberate modelling devices.

First, each stage launches its two calls through an errgroup whose goroutines
also assign the shared local variable err. In stages two to four the guard
re-binds err to the value returned by eg.Wait(), which is the first non-nil
error any goroutine of the group has ever returned and stays set once set
(the group records it through a once cell); that guard is therefore
deterministic: it fires exactly when some goroutine so far has failed. In
stage one, however, the source reads the shared err variable itself (the
statement discards the value of eg.Wait()), and that variable is written by
both goroutines without synchronization; its final content is whichever
write lands last. The parameter dstLast resolves that race: when true the
write by the Dst goroutine lands last, when false the write by the Src
goroutine does.

Second, the responses of the connection and channel queries are pointers that
the source dereferences without a nil check, behind the short-circuiting
error test of the same guard; a nil dereference is a Go panic, modelled by
the none result. Every other outcome yields some snapshot.

The heights fixed in stage one are used for every later query on the
respective chain, exactly as in the source. -/
def Path.QueryPathStatus {H : Type} (p : Path) (src dst : ProvableChain H)
    (dstLast : Bool) : Option PathWithStatus :=
  let srch := src.latestHeight.1
  let srcErr := src.latestHeight.2
  let dsth := dst.latestHeight.1
  let dstErr := dst.latestHeight.2
  let sharedErr := if dstLast then dstErr else srcErr
  if sharedErr then some ⟨p, ⟨false, false, false, false⟩⟩ else
  let sticky1 := srcErr || dstErr
  let srcCs := (src.queryClientState srch).1
  let e2s := (src.queryClientState srch).2
  let dstCs := (dst.queryClientState dsth).1
  let e2d := (dst.queryClientState dsth).2
  let sticky2 := sticky1 || e2s || e2d
  if sticky2 || srcCs.isNone || dstCs.isNone then
    some ⟨p, ⟨true, false, false, false⟩⟩ else
  let srcConn := (src.queryConnection srch).1
  let e3s := (src.queryConnection srch).2
  let dstConn := (dst.queryConnection dsth).1
  let e3d := (dst.queryConnection dsth).2
  let sticky3 := sticky2 || e3s || e3d
  if sticky3 then some ⟨p, ⟨true, true, false, false⟩⟩ else
  match srcConn with
  | none => none
  | some sc =>
    if sc.Connection.State ≠ ConnectionState.OPEN then
      some ⟨p, ⟨true, true, false, false⟩⟩ else
    match dstConn with
    | none => none
    | some dc =>
      if dc.Connection.State ≠ ConnectionState.OPEN then
        some ⟨p, ⟨true, true, false, false⟩⟩ else
      let srcChan := (src.queryChannel srch).1
      let e4s := (src.queryChannel srch).2
      let dstChan := (dst.queryChannel dsth).1
      let e4d := (dst.queryChannel dsth).2
      let sticky4 := sticky3 || e4s || e4d
      if sticky4 then some ⟨p, ⟨true, true, true, false⟩⟩ else
      match srcChan with
      | none => none
      | some sch =>
        if sch.Channel.State ≠ ChannelState.OPEN then
          some ⟨p, ⟨true, true, true, false⟩⟩ else
        match dstChan with
        | none => none
        | some dch =>
          if dch.Channel.State ≠ ChannelState.OPEN then
            some ⟨p, ⟨true, true, true, false⟩⟩ else
          some ⟨p, ⟨true, true, true, true⟩⟩

/-- Error outcomes of the write authority signer closure from the ethereum
source file: the authorization guard, a failure of the cryptographic signing
primitive, and a failure of the signature attachment. -/
inductive SignErr
  | unauthorizedSigner
  | signingError
  | withSignatureError
deriving DecidableEq

/-- Chain state used by TxOpts in the ethereum source: the numeric chain
identifier (a big.Int, model Int) and the relayer private key, whose concrete
representation is abstract. -/
structure Chain (PrvKey : Type) where
  chainID : Int
  relayerPrvKey : PrvKey

/-- TransactOpts as populated by Chain.TxOpts: the From address, the fixed
gas limit, and the signer closure. -/
structure TransactOpts (Addr Tx : Type) where
  From : Addr
  GasLimit : Nat
  Signer : Addr → Tx → Except SignErr Tx

/-- Chain.TxOpts from the ethereum source file lines 41-59. The geth
primitives are abstract parameters: pubkeyToAddress derives the address of a
private key (the composition of taking the public key and PubkeyToAddress),
eip155Hash is the digest opts of NewEIP155Signer(chainID) applied to a
transaction, cryptoSign is gethcrypto.Sign, and withSignature is
tx.WithSignature with the same EIP155 signer, which produces a new signed
transaction value. The closure refuses any address other than the derived
one before touching the signing primitive, then signs the EIP155 digest of
the transaction for the captured chain identifier. -/
def Chain.TxOpts {Addr PrvKey Tx Dig Sig : Type} [DecidableEq Addr]
    (pubkeyToAddress : PrvKey → Addr)
    (eip155Hash : Int → Tx → Dig)
    (cryptoSign : Dig → PrvKey → Except SignErr Sig)
    (withSignature : Tx → Int → Sig → Except SignErr Tx)
    (chain : Chain PrvKey) : TransactOpts Addr Tx :=
  let prv := chain.relayerPrvKey
  let addr := pubkeyToAddress prv
  { From := addr
    GasLimit := 6382056
    Signer := fun address tx =>
      if address ≠ addr then .error .unauthorizedSigner
      else
        match cryptoSign (eip155Hash chain.chainID tx) prv with
        | .error e => .error e
        | .ok signature => withSignature tx chain.chainID signature }

/-- Sample source-side path end used by concrete instances below. -/
def sampleSrcEnd : PathEnd :=
  { ChainID := "chain-a", ClientID := "client-a", ConnectionID := "conn-a",
    ChannelID := "chan-a", PortID := "transfer", Order := "ORDERED",
    Version := "ics20-1" }

/-- Sample destination-side path end used by concrete instances below. -/
def sampleDstEnd : PathEnd :=
  { ChainID := "chain-b", ClientID := "client-b", ConnectionID := "conn-b",
    ChannelID := "chan-b", PortID := "transfer", Order := "ORDERED",
    Version := "ics20-1" }

/-- Well-formed sample path between chain-a and chain-b. -/
def samplePath : Path :=
  { Src := sampleSrcEnd, Dst := sampleDstEnd, Strategy := { type' := "naive" } }

/-- Path identical to samplePath except that the destination Version is
empty. -/
def pathNoDstVersion : Path :=
  { Src := sampleSrcEnd, Dst := { sampleDstEnd with Version := "" },
    Strategy := { type' := "naive" } }

/-- Path identical to samplePath except that the destination Order differs
from the source Order. -/
def pathOrderMismatch : Path :=
  { Src := sampleSrcEnd, Dst := { sampleDstEnd with Order := "UNORDERED" },
    Strategy := { type' := "naive" } }

/-- Path whose two sides are both the zero PathEnd. -/
def pathZeroEnds : Path :=
  { Src := zeroPathEnd, Dst := zeroPathEnd, Strategy := { type' := "naive" } }

/-- Path whose two sides carry the same chain identifier chain-a. -/
def sameChainPath : Path :=
  { Src := sampleSrcEnd, Dst := { sampleDstEnd with ChainID := "chain-a" },
    Strategy := { type' := "naive" } }

/-- Chain whose every call succeeds: height 3, a present client state, and
OPEN connection and channel. -/
def okChain : ProvableChain Nat :=
  { latestHeight := (3, false)
    queryClientState := fun _ => (some { clientStatePayload := () }, false)
    queryConnection := fun _ =>
      (some { Connection := { State := ConnectionState.OPEN } }, false)
    queryChannel := fun _ =>
      (some { Channel := { State := ChannelState.OPEN } }, false) }

/-- Chain whose LatestHeight call fails while its queries would succeed. -/
def srcHeightFailChain : ProvableChain Nat :=
  { latestHeight := (0, true)
    queryClientState := fun _ => (some { clientStatePayload := () }, false)
    queryConnection := fun _ =>
      (some { Connection := { State := ConnectionState.OPEN } }, false)
    queryChannel := fun _ =>
      (some { Channel := { State := ChannelState.OPEN } }, false) }

/-- Chain that behaves like okChain at height 3 and fails every query at any
other height; it agrees with okChain at the height fixed in stage one. -/
def heightSensitiveChain : ProvableChain Nat :=
  { latestHeight := (3, false)
    queryClientState := fun h =>
      if h = 3 then (some { clientStatePayload := () }, false) else (none, true)
    queryConnection := fun h =>
      if h = 3 then (some { Connection := { State := ConnectionState.OPEN } }, false)
      else (none, true)
    queryChannel := fun h =>
      if h = 3 then (some { Channel := { State := ChannelState.OPEN } }, false)
      else (none, true) }

/-- Lookup after a store finds the stored path: the registry analogue of Go
map indexing right after assignment. -/
theorem find?_insertEntry (p : Paths) (name : String) (path : Path) :
    Paths.find? (Paths.insertEntry p name path) name = some path := by
  induction p with
  | nil => simp [Paths.insertEntry, Paths.find?]
  | cons e es ih =>
    by_cases h : e.1 = name
    · simp [Paths.insertEntry, Paths.find?, h]
    · simp [Paths.insertEntry, Paths.find?, h, ih]

/-- Match predicate of PathsFromChains is symmetric in the two requested
chain identifiers. -/
theorem pathsFromChainsPred_symm (src dst : String) (e : String × Path) :
    pathsFromChainsPred src dst e = pathsFromChainsPred dst src e := by
  simp [pathsFromChainsPred, Bool.and_comm]

/-- C2 counterexample: the claimed biconditional for Path.Validate is false
on the concrete path whose destination Version is empty — Validate succeeds
although the claimed right-hand side, which requires a non-empty Dst.Version,
fails, because the source never consults Dst.Version. -/
theorem pathValidate_dstVersion_not_required :
    ¬ ((Path.Validate pathNoDstVersion = .ok ()) ↔
      (PathEnd.Validate pathNoDstVersion.Src = .ok () ∧
       pathNoDstVersion.Src.Version ≠ "" ∧
       PathEnd.Validate pathNoDstVersion.Dst = .ok () ∧
       pathNoDstVersion.Dst.Version ≠ "" ∧
       Path.ValidateStrategy pathNoDstVersion = .ok () ∧
       pathNoDstVersion.Src.Order = pathNoDstVersion.Dst.Order)) := by
  intro h
  exact (h.mp rfl).2.2.2.1 rfl

/-- C2 amended: Path.Validate succeeds exactly when the source end is valid,
the source Version is non-empty, the destination end is valid, the strategy
is valid, and the two Orders agree — Dst.Version is not consulted; and when
every earlier check passes but the Orders differ, the returned error is the
message reporting both observed order values. -/
theorem pathValidate_characterization (p : Path) :
    (Path.Validate p = .ok () ↔
      (PathEnd.Validate p.Src = .ok () ∧ p.Src.Version ≠ "" ∧
       PathEnd.Validate p.Dst = .ok () ∧ Path.ValidateStrategy p = .ok () ∧
       p.Src.Order = p.Dst.Order)) ∧
    (PathEnd.Validate p.Src = .ok () → p.Src.Version ≠ "" →
     PathEnd.Validate p.Dst = .ok () → Path.ValidateStrategy p = .ok () →
     p.Src.Order ≠ p.Dst.Order →
     Path.Validate p = .error (orderMismatchMessage p.Src.Order p.Dst.Order)) := by
  rcases hs : PathEnd.Validate p.Src with es | ⟨⟩
  · simp [Path.Validate, hs]
  · by_cases hv : p.Src.Version = ""
    · simp [Path.Validate, hs, hv]
    · rcases hd : PathEnd.Validate p.Dst with ed | ⟨⟩
      · simp [Path.Validate, hs, hv, hd]
      · rcases hst : Path.ValidateStrategy p with est | ⟨⟩
        · simp [Path.Validate, hs, hv, hd, hst]
        · by_cases ho : p.Src.Order = p.Dst.Order
          · simp [Path.Validate, hs, hv, hd, hst, ho]
          · simp [Path.Validate, hs, hv, hd, hst, ho]

/-- C2 witness: on the concrete order-mismatched path every earlier check
passes and Validate returns the message carrying both observed orders. -/
theorem pathValidate_characterization_witness :
    Path.Validate pathOrderMismatch =
      .error (orderMismatchMessage pathOrderMismatch.Src.Order
        pathOrderMismatch.Dst.Order) :=
  (pathValidate_characterization pathOrderMismatch).2 rfl (by decide) rfl rfl
    (by decide)

/-- C8 counterexample: GenPath invoked with an empty version yields a path
rejected by Validate, refuting the claim that every GenPath result passes
Validate. -/
theorem genPath_empty_version_invalid :
    Path.Validate (GenPath "chain-a" "chain-b" "transfer" "transfer" "ORDERED"
      "" "scl" "sco" "sch" "dcl" "dco" "dch") =
      .error "source must specify a version" := rfl

/-- C8 amended: GenPath passes Validate whenever the two chain identifiers
are non-empty, the order is one of the two recognized values, and the version
is non-empty, for arbitrary port and generated identifiers. -/
theorem genPath_valid_of_wellformed
    (srcChainID dstChainID srcPortID dstPortID order version
     srcClientID srcConnID srcChanID dstClientID dstConnID dstChanID : String)
    (h1 : srcChainID ≠ "") (h2 : dstChainID ≠ "")
    (h3 : order = "ORDERED" ∨ order = "UNORDERED") (h4 : version ≠ "") :
    Path.Validate (GenPath srcChainID dstChainID srcPortID dstPortID order
      version srcClientID srcConnID srcChanID dstClientID dstConnID dstChanID) =
      .ok () := by
  rcases h3 with h3 | h3 <;> subst h3 <;>
    simp [GenPath, Path.Validate, PathEnd.Validate, Path.ValidateStrategy,
      h1, h2, h4]

/-- C8 witness: a concrete well-formed GenPath invocation passes Validate. -/
theorem genPath_valid_of_wellformed_witness :
    Path.Validate (GenPath "chain-a" "chain-b" "transfer" "transfer" "ORDERED"
      "ics20-1" "scl" "sco" "sch" "dcl" "dco" "dch") = .ok () :=
  genPath_valid_of_wellformed "chain-a" "chain-b" "transfer" "transfer"
    "ORDERED" "ics20-1" "scl" "sco" "sch" "dcl" "dco" "dch"
    (by decide) (by decide) (Or.inl rfl) (by decide)

/-- C9 counterexample: on the path whose sides are both the zero PathEnd and
the empty chain identifier, End returns the zero PathEnd although the Dst
side does match, refuting the claim that the zero PathEnd is returned exactly
when neither side matches. -/
theorem pathEnd_zero_returned_with_match :
    ¬ (Path.End pathZeroEnds "" = zeroPathEnd ↔
       (pathZeroEnds.Dst.ChainID ≠ "" ∧ pathZeroEnds.Src.ChainID ≠ "")) := by
  intro h
  exact (h.mp rfl).1 rfl

/-- C9 amended: End returns the Dst side whenever its ChainID matches (in
particular the Dst side wins when both sides carry the queried ChainID),
returns the Src side when only it matches, and returns the zero PathEnd when
neither side matches; the returned value can coincide with the zero PathEnd
also when a zero-valued side matches the empty identifier. -/
theorem path_end_spec (p : Path) (chainID : String) :
    (p.Dst.ChainID = chainID → Path.End p chainID = p.Dst) ∧
    (p.Dst.ChainID ≠ chainID → p.Src.ChainID = chainID →
      Path.End p chainID = p.Src) ∧
    (p.Dst.ChainID ≠ chainID → p.Src.ChainID ≠ chainID →
      Path.End p chainID = zeroPathEnd) := by
  refine ⟨fun h => ?_, fun h1 h2 => ?_, fun h1 h2 => ?_⟩ <;> simp [Path.End, *]

/-- C9 witness: on the path whose two sides both carry chain-a, End returns
the Dst side. -/
theorem path_end_spec_witness :
    Path.End sameChainPath "chain-a" = sameChainPath.Dst :=
  (path_end_spec sameChainPath "chain-a").1 rfl

/-- C6: Add on a present name with a valid path fails with the duplicate-name
error and returns the registry unchanged (so the existing entry and all other
entries are untouched); Add and AddForce on an invalid path fail with the
validation error and return the registry unchanged; AddForce with a valid
path succeeds and afterwards the name maps to the new path, also when the
name was already present. -/
theorem paths_add_addForce_spec (p : Paths) (name : String) (path : Path) :
    ((Paths.find? p name).isSome = true → Path.Validate path = .ok () →
      Paths.Add p name path =
        (.error ("path with name " ++ name ++ " already exists"), p)) ∧
    (∀ e, Path.Validate path = .error e →
      Paths.Add p name path = (.error e, p) ∧
      Paths.AddForce p name path = (.error e, p)) ∧
    (Path.Validate path = .ok () →
      (Paths.AddForce p name path).1 = .ok () ∧
      Paths.find? (Paths.AddForce p name path).2 name = some path) := by
  refine ⟨fun hdup hval => ?_, fun e hval => ?_, fun hval => ?_⟩
  · simp [Paths.Add, hval, hdup]
  · exact ⟨by simp [Paths.Add, hval], by simp [Paths.AddForce, hval]⟩
  · simp [Paths.AddForce, hval, find?_insertEntry]

/-- C6 witness: on a registry already holding the name demo, Add of a valid
path fails with the duplicate-name error and leaves the registry as it was. -/
theorem paths_add_addForce_spec_witness :
    Paths.Add [("demo", samplePath)] "demo" sameChainPath =
      (.error ("path with name " ++ "demo" ++ " already exists"),
        [("demo", samplePath)]) :=
  (paths_add_addForce_spec [("demo", samplePath)] "demo" sameChainPath).1
    rfl rfl

/-- C7 counterexample: with both requested identifiers equal to chain-a, the
registry entry linking chain-a to chain-b is returned, although its end set
is not the requested set, refuting the order-insensitive set-equality
characterization. -/
theorem pathsFromChains_equal_args_superset :
    Paths.PathsFromChains [("p1", samplePath)] "chain-a" "chain-a" =
        .ok [("p1", samplePath)] ∧
      samplePath.Src.ChainID = "chain-a" ∧ samplePath.Dst.ChainID = "chain-b" ∧
      ("chain-b" : String) ≠ "chain-a" :=
  ⟨rfl, rfl, rfl, by decide⟩

/-- C7 amended: an entry is returned exactly when it is registered and each
of the two requested chain identifiers equals one of its two end chain
identifiers (for two distinct requested identifiers this coincides with
order-insensitive set equality, while for equal ones it only requires the
identifier to appear among the ends); the returned collection is the same
regardless of argument order, and the call fails exactly when no registered
entry matches. -/
theorem pathsFromChains_characterization (p : Paths) (a b : String) :
    (∀ e : String × Path,
      (∃ out, Paths.PathsFromChains p a b = .ok out ∧ e ∈ out) ↔
        (e ∈ p ∧ (e.2.Dst.ChainID = a ∨ e.2.Src.ChainID = a) ∧
          (e.2.Dst.ChainID = b ∨ e.2.Src.ChainID = b))) ∧
    (Except.toOption (Paths.PathsFromChains p a b) =
      Except.toOption (Paths.PathsFromChains p b a)) ∧
    ((∃ msg, Paths.PathsFromChains p a b = .error msg) ↔
      ∀ e ∈ p, ¬((e.2.Dst.ChainID = a ∨ e.2.Src.ChainID = a) ∧
        (e.2.Dst.ChainID = b ∨ e.2.Src.ChainID = b))) := by
  have hpred : ∀ e : String × Path, pathsFromChainsPred a b e = true ↔
      ((e.2.Dst.ChainID = a ∨ e.2.Src.ChainID = a) ∧
        (e.2.Dst.ChainID = b ∨ e.2.Src.ChainID = b)) := by
    intro e; simp [pathsFromChainsPred]
  have hfilter : p.filter (pathsFromChainsPred b a) =
      p.filter (pathsFromChainsPred a b) :=
    List.filter_congr fun e _ => pathsFromChainsPred_symm b a e
  refine ⟨fun e => ?_, ?_, ?_⟩
  · unfold Paths.PathsFromChains
    by_cases hemp : (p.filter (pathsFromChainsPred a b)).isEmpty
    · have hnil := List.isEmpty_iff.mp hemp
      have hall := List.filter_eq_nil_iff.mp hnil
      simp only [hemp, if_pos]
      constructor
      · rintro ⟨out, hout, -⟩; cases hout
      · rintro ⟨hmem, hcond⟩
        exact (hall e hmem ((hpred e).mpr hcond)).elim
    · simp only [hemp, if_neg, Bool.false_eq_true, not_false_iff]
      constructor
      · rintro ⟨out, hout, hmem⟩
        obtain rfl : p.filter (pathsFromChainsPred a b) = out :=
          Except.ok.inj hout
        have := List.mem_filter.mp hmem
        exact ⟨this.1, (hpred e).mp this.2⟩
      · rintro ⟨hmem, hcond⟩
        exact ⟨p.filter (pathsFromChainsPred a b), rfl,
          List.mem_filter.mpr ⟨hmem, (hpred e).mpr hcond⟩⟩
  · unfold Paths.PathsFromChains
    rw [hfilter]
    by_cases hemp : (p.filter (pathsFromChainsPred a b)).isEmpty <;>
      simp [hemp, Except.toOption]
  · unfold Paths.PathsFromChains
    by_cases hemp : (p.filter (pathsFromChainsPred a b)).isEmpty
    · have hall := List.filter_eq_nil_iff.mp (List.isEmpty_iff.mp hemp)
      simp only [hemp, if_pos]
      constructor
      · intro _ e hmem hcond
        exact hall e hmem ((hpred e).mpr hcond)
      · intro _; exact ⟨_, rfl⟩
    · have hne := mt List.isEmpty_iff.mpr hemp
      simp only [hemp, if_neg, Bool.false_eq_true, not_false_iff]
      constructor
      · rintro ⟨msg, hmsg⟩; cases hmsg
      · intro hall
        exact absurd (List.filter_eq_nil_iff.mpr
          (fun e hmem hcond => hall e hmem ((hpred e).mp hcond))) hne

/-- C7 witness: on a concrete registry the returned collection is the same
for both argument orders. -/
theorem pathsFromChains_characterization_witness :
    Except.toOption (Paths.PathsFromChains [("p1", samplePath)] "chain-a" "chain-b") =
      Except.toOption (Paths.PathsFromChains [("p1", samplePath)] "chain-b" "chain-a") :=
  (pathsFromChains_characterization [("p1", samplePath)] "chain-a" "chain-b").2.1

/-- C1: evaluation of the orchestrator at the failing input. When the Src
LatestHeight call fails, the Dst call succeeds, and the unsynchronized final
write to the shared err variable is the one by the Dst goroutine, the stage
one guard (which reads that shared variable instead of the value returned by
eg.Wait()) sees no error, so Chains is set to true; the stage two guard then
observes the sticky errgroup error and stops. The returned snapshot is
therefore Chains true and the rest false, while the claim requires the
all-false snapshot whenever the Src LatestHeight call fails. -/
theorem queryPathStatus_srcHeightFailure_race :
    Path.QueryPathStatus samplePath srcHeightFailChain okChain true =
      some ⟨samplePath, ⟨true, false, false, false⟩⟩ := rfl

/-- C3: every snapshot the orchestrator returns is a monotonic staged prefix:
Clients implies Chains, Connection implies Clients, and Channel implies
Connection; this holds for every pair of chains and for both resolutions of
the stage-one race. -/
theorem queryPathStatus_monotonic {H : Type} (p : Path)
    (src dst : ProvableChain H) (dstLast : Bool) (pws : PathWithStatus)
    (h : Path.QueryPathStatus p src dst dstLast = some pws) :
    (pws.Status.Clients = true → pws.Status.Chains = true) ∧
    (pws.Status.Connection = true → pws.Status.Clients = true) ∧
    (pws.Status.Channel = true → pws.Status.Connection = true) := by
  simp only [Path.QueryPathStatus] at h
  repeat' split at h
  all_goals
    first
      | exact Option.noConfusion h
      | (obtain rfl := Option.some.inj h; simp)

/-- C3 witness: the fully successful run returns the all-true snapshot, on
which the three staged implications are exhibited. -/
theorem queryPathStatus_monotonic_witness :
    ((⟨samplePath, ⟨true, true, true, true⟩⟩ : PathWithStatus).Status.Clients = true →
      (⟨samplePath, ⟨true, true, true, true⟩⟩ : PathWithStatus).Status.Chains = true) ∧
    ((⟨samplePath, ⟨true, true, true, true⟩⟩ : PathWithStatus).Status.Connection = true →
      (⟨samplePath, ⟨true, true, true, true⟩⟩ : PathWithStatus).Status.Clients = true) ∧
    ((⟨samplePath, ⟨true, true, true, true⟩⟩ : PathWithStatus).Status.Channel = true →
      (⟨samplePath, ⟨true, true, true, true⟩⟩ : PathWithStatus).Status.Connection = true) :=
  queryPathStatus_monotonic samplePath okChain okChain false _ rfl

/-- C4: within one invocation the orchestrator consults each chain only
through its latest height and through queries at the height that chain
returned in stage one. Formally, replacing the two chains by chains that
return the same latest heights and agree with them on every query at those
fixed heights leaves the result unchanged, whatever the chains do at any
other height; hence no later stage re-fetches or changes either height. -/
theorem queryPathStatus_heights_fixed {H : Type} (p : Path)
    (src dst src2 dst2 : ProvableChain H) (dstLast : Bool)
    (h1 : src2.latestHeight = src.latestHeight)
    (h2 : dst2.latestHeight = dst.latestHeight)
    (h3 : src2.queryClientState src.latestHeight.1 =
      src.queryClientState src.latestHeight.1)
    (h4 : dst2.queryClientState dst.latestHeight.1 =
      dst.queryClientState dst.latestHeight.1)
    (h5 : src2.queryConnection src.latestHeight.1 =
      src.queryConnection src.latestHeight.1)
    (h6 : dst2.queryConnection dst.latestHeight.1 =
      dst.queryConnection dst.latestHeight.1)
    (h7 : src2.queryChannel src.latestHeight.1 =
      src.queryChannel src.latestHeight.1)
    (h8 : dst2.queryChannel dst.latestHeight.1 =
      dst.queryChannel dst.latestHeight.1) :
    Path.QueryPathStatus p src2 dst2 dstLast =
      Path.QueryPathStatus p src dst dstLast := by
  simp only [Path.QueryPathStatus, h1, h2, h3, h4, h5, h6, h7, h8]

/-- C4 witness: a chain failing every query away from the stage-one height
is indistinguishable from the everywhere-successful chain. -/
theorem queryPathStatus_heights_fixed_witness :
    Path.QueryPathStatus samplePath heightSensitiveChain okChain false =
      Path.QueryPathStatus samplePath okChain okChain false :=
  queryPathStatus_heights_fixed samplePath okChain okChain
    heightSensitiveChain okChain false rfl rfl rfl rfl rfl rfl rfl rfl

set_option maxHeartbeats 2000000

/-- C10: under the precondition that neither chain ever answers a connection
or channel query with a nil response alongside a nil error, the orchestrator
always returns a snapshot: the connection and channel dereferences sit behind
the short-circuiting error test of their guard, so they are reached only with
a nil error, where the precondition makes the response non-nil; the client
state responses need no such precondition since stage two tests them for nil
explicitly. -/
theorem queryPathStatus_total_of_nonnil {H : Type} (p : Path)
    (src dst : ProvableChain H) (dstLast : Bool)
    (hsc : ∀ hgt, (src.queryConnection hgt).2 = false →
      ((src.queryConnection hgt).1).isSome = true)
    (hdc : ∀ hgt, (dst.queryConnection hgt).2 = false →
      ((dst.queryConnection hgt).1).isSome = true)
    (hsch : ∀ hgt, (src.queryChannel hgt).2 = false →
      ((src.queryChannel hgt).1).isSome = true)
    (hdch : ∀ hgt, (dst.queryChannel hgt).2 = false →
      ((dst.queryChannel hgt).1).isSome = true) :
    (Path.QueryPathStatus p src dst dstLast).isSome = true := by
  simp only [Path.QueryPathStatus]
  repeat' split
  all_goals try rfl
  all_goals simp_all
  all_goals
    (try have h1x : ((src.queryConnection src.latestHeight.1).1).isSome = true := by
          apply hsc; tauto
     try have h2x : ((dst.queryConnection dst.latestHeight.1).1).isSome = true := by
          apply hdc; tauto
     try have h3x : ((src.queryChannel src.latestHeight.1).1).isSome = true := by
          apply hsch; tauto
     try have h4x : ((dst.queryChannel dst.latestHeight.1).1).isSome = true := by
          apply hdch; tauto
     simp_all)

/-- C10 witness: the everywhere-successful chains satisfy the precondition
and the orchestrator returns a snapshot on them. -/
theorem queryPathStatus_total_of_nonnil_witness :
    (Path.QueryPathStatus samplePath okChain okChain true).isSome = true :=
  queryPathStatus_total_of_nonnil samplePath okChain okChain true
    (fun _ _ => rfl) (fun _ _ => rfl) (fun _ _ => rfl) (fun _ _ => rfl)

/-- C5: the signer closure built by TxOpts refuses any candidate address
other than the one derived from the held private key with the
unauthorized-signer error, and its result is then independent of the signing
and signature-attachment primitives, so the cryptographic signer is never
invoked; on the matching address it signs the EIP155 digest of the original
transaction for the captured chain identifier and combines the original
transaction with the produced signature (the original transaction value is
never modified, the combination producing a new value). -/
theorem txOpts_signer_spec {Addr PrvKey Tx Dig Sig : Type} [DecidableEq Addr]
    (pubkeyToAddress : PrvKey → Addr) (eip155Hash : Int → Tx → Dig)
    (cryptoSign : Dig → PrvKey → Except SignErr Sig)
    (withSignature : Tx → Int → Sig → Except SignErr Tx)
    (chain : Chain PrvKey) (address : Addr) (tx : Tx) :
    (address ≠ pubkeyToAddress chain.relayerPrvKey →
      ∀ (cryptoSign2 : Dig → PrvKey → Except SignErr Sig)
        (withSignature2 : Tx → Int → Sig → Except SignErr Tx),
        (Chain.TxOpts pubkeyToAddress eip155Hash cryptoSign2 withSignature2
          chain).Signer address tx = .error .unauthorizedSigner) ∧
    (address = pubkeyToAddress chain.relayerPrvKey →
      (Chain.TxOpts pubkeyToAddress eip155Hash cryptoSign withSignature
        chain).Signer address tx =
        Except.bind
          (cryptoSign (eip155Hash chain.chainID tx) chain.relayerPrvKey)
          (fun signature => withSignature tx chain.chainID signature)) := by
  constructor
  · intro hne cs2 ws2
    simp [Chain.TxOpts, hne]
  · intro heq
    subst heq
    simp only [Chain.TxOpts]
    rw [if_neg (by simp)]
    cases h : cryptoSign (eip155Hash chain.chainID tx) chain.relayerPrvKey <;>
      simp [h, Except.bind]

/-- C5 witness: with all backend types instantiated at Nat, a candidate
address different from the derived one is refused. -/
theorem txOpts_signer_spec_witness :
    (Chain.TxOpts (fun k : Nat => k) (fun (_ : Int) (t : Nat) => t)
      (fun d k => .ok (d + k)) (fun t _ s => .ok (t + s))
      (⟨5, 7⟩ : Chain Nat)).Signer 9 100 = .error .unauthorizedSigner :=
  (txOpts_signer_spec (fun k : Nat => k) (fun (_ : Int) (t : Nat) => t)
    (fun d k => .ok (d + k)) (fun t _ s => .ok (t + s)) ⟨5, 7⟩ 9 100).1
    (by decide) (fun d k => .ok (d + k)) (fun t _ s => .ok (t + s))

end Relayer
